import Mathlib

/-!
# Verification of the tfrecord summary/event pipeline

A shallow embedding of the record framing codec, the summary/event payload
builders (`src/summary/event.rs`), the event writer orchestration
(`src/summary/writer.rs`) and the TensorFlow-style path resolver, together
with theorems settling the specification claims about them.

Conventions of the embedding:
* Bytes are `Nat` values below 256; byte strings are `List Nat`.
* Machine integers are `Nat`/`Int` with explicit `% 2^w` where overflow
  matters.
* Rust `f32`/`f64` values are carried opaquely: `f32` as a bit-pattern
  wrapper (the payload builders never compute on it), `f64` wall times as
  exact rationals (the one conversion, nanoseconds to seconds, is modelled
  exactly; IEEE rounding is not observable by any claim).
* Fallible Rust functions returning `Result<T, Error>` become
  `Except Error T`; a Rust panic becomes `Option.none`.
* The byte sink is an in-memory pair of an unflushed buffer and the flushed
  output; `flush` moves the buffer into the output.
-/

namespace TfRecord

/-- The library error type. Modelled from the spec: `error.rs` is not part
of the provided sources; §7 of the spec lists the four error kinds
(`InvalidArgumentsError`, `UnicodeError`, `ConversionError`, `IoError`),
each carrying a description. -/
inductive Error where
  | invalidArgumentsError (desc : String)
  | unicodeError (desc : String)
  | conversionError (desc : String)
  | ioError (desc : String)
deriving DecidableEq, Repr

/-- An opaque 32-bit float value, identified by its bit pattern. The
summary builders store `f32` values verbatim and never compute on them. -/
structure F32 where
  bits : Nat
deriving DecidableEq, Repr

/-- Encode `x` as `n` bytes, little-endian (truncating above `256^n`),
mirroring Rust's `u64::to_le_bytes` / `u32::to_le_bytes`. -/
def leBytes : Nat → Nat → List Nat
  | 0, _ => []
  | n + 1, x => x % 256 :: leBytes n (x / 256)

/-- Decode a little-endian byte string back to a natural number (an
external reader's view of a length or checksum field). -/
def fromLe : List Nat → Nat
  | [] => 0
  | b :: bs => b + 256 * fromLe bs

theorem leBytes_length (n x : Nat) : (leBytes n x).length = n := by
  induction n generalizing x with
  | zero => rfl
  | succ n ih => simp [leBytes, ih]

theorem fromLe_leBytes (n x : Nat) : fromLe (leBytes n x) = x % 256 ^ n := by
  induction n generalizing x with
  | zero => simp [leBytes, fromLe, Nat.mod_one]
  | succ n ih =>
    simp only [leBytes, fromLe, ih]
    rw [pow_succ', Nat.mod_mul]

/-- One step of the bitwise (reflected) CRC32C update: shift out the low
bit, folding in the reflected Castagnoli polynomial when it was set.
Modelled from the spec: the checksum codec source is not under `src/`;
§4.1 specifies "the standard CRC32C (Castagnoli polynomial)". -/
def crcStepBit (crc : Nat) : Nat :=
  if crc % 2 = 1 then (crc / 2) ^^^ 0x82F63B78 else crc / 2

/-- Fold one input byte into the running CRC: xor it into the low byte,
then run eight bit steps. -/
def crcStepByte (crc b : Nat) : Nat :=
  Nat.iterate crcStepBit 8 (crc ^^^ b % 256)

/-- Standard CRC32C (Castagnoli) of a byte string: initial value
`0xFFFFFFFF`, bitwise reflected updates, final xor `0xFFFFFFFF`.
Modelled from the spec (§4.1); the codec source is not under `src/`. -/
def crc32c (bytes : List Nat) : Nat :=
  (bytes.foldl crcStepByte 0xFFFFFFFF) ^^^ 0xFFFFFFFF

/-- The masking transform of §4.1:
`masked = ((crc >> 15) | (crc << 17)) + 0xA282EAD8 (mod 2^32)`.
Modelled from the spec; the codec source is not under `src/`. -/
def maskCrc (crc : Nat) : Nat :=
  ((crc >>> 15 ||| crc <<< 17) + 0xA282EAD8) % 2 ^ 32

/-- The masked CRC32C checksum used by the record framer. Modelled from
the spec (§4.1); the codec source is not under `src/`. -/
def masked_crc32c (bytes : List Nat) : Nat :=
  maskCrc (crc32c bytes)

theorem crcStepBit_lt (crc : Nat) (h : crc < 2 ^ 32) : crcStepBit crc < 2 ^ 32 := by
  unfold crcStepBit
  have hdiv : crc / 2 < 2 ^ 31 := by omega
  split
  · exact Nat.xor_lt_two_pow (lt_trans hdiv (by norm_num)) (by norm_num)
  · exact lt_trans hdiv (by norm_num)

theorem crcStepByte_lt (crc b : Nat) (h : crc < 2 ^ 32) :
    crcStepByte crc b < 2 ^ 32 := by
  unfold crcStepByte
  have hx : crc ^^^ b % 256 < 2 ^ 32 :=
    Nat.xor_lt_two_pow h (lt_trans (Nat.mod_lt _ (by norm_num)) (by norm_num))
  have iter : ∀ k x, x < 2 ^ 32 → Nat.iterate crcStepBit k x < 2 ^ 32 := by
    intro k
    induction k with
    | zero => intro x hx0; simpa using hx0
    | succ k ih =>
      intro x hx0
      rw [Function.iterate_succ_apply]
      exact ih _ (crcStepBit_lt x hx0)
  exact iter 8 _ hx

theorem crc32c_lt (bytes : List Nat) : crc32c bytes < 2 ^ 32 := by
  unfold crc32c
  have hfold : ∀ (l : List Nat) (c : Nat), c < 2 ^ 32 →
      l.foldl crcStepByte c < 2 ^ 32 := by
    intro l
    induction l with
    | nil => intro c hc; simpa using hc
    | cons b t ih =>
      intro c hc
      exact ih _ (crcStepByte_lt c b hc)
  exact Nat.xor_lt_two_pow (hfold bytes 0xFFFFFFFF (by norm_num)) (by norm_num)

theorem lor_mod_two_pow (x y p : Nat) :
    (x ||| y) % 2 ^ p = x % 2 ^ p ||| y % 2 ^ p := by
  apply Nat.eq_of_testBit_eq
  intro i
  simp [Nat.testBit_mod_two_pow, Nat.testBit_lor, Bool.and_or_distrib_left]

theorem lor_mul_two_pow_eq_add (k : Nat) :
    ∀ a b : Nat, a < 2 ^ k → a ||| b * 2 ^ k = a + b * 2 ^ k := by
  induction k with
  | zero =>
    intro a b ha
    interval_cases a
    simp
  | succ k ih =>
    intro a b ha
    have hbit : a = Nat.bit (Nat.bodd a) (Nat.div2 a) := (Nat.bit_decomp a).symm
    have hb : b * 2 ^ (k + 1) = Nat.bit false (b * 2 ^ k) := by
      simp [Nat.bit, pow_succ]
      ring
    have hdiv : Nat.div2 a < 2 ^ k := by
      have := Nat.div2_val a
      have h2 : a < 2 ^ k * 2 := by rw [← pow_succ]; exact ha
      omega
    rw [hbit, hb, Nat.lor_bit, ih _ b hdiv]
    cases h : Nat.bodd a <;> simp [Nat.bit] <;> ring

theorem maskCrc_eq_rotation (c : Nat) (hc : c < 2 ^ 32) :
    maskCrc c = (c / 2 ^ 15 + c % 2 ^ 15 * 2 ^ 17 + 0xA282EAD8) % 2 ^ 32 := by
  unfold maskCrc
  have hshr : c >>> 15 = c / 2 ^ 15 := Nat.shiftRight_eq_div_pow c 15
  have h1 : (c >>> 15 ||| c <<< 17) % 2 ^ 32 = c / 2 ^ 15 + c % 2 ^ 15 * 2 ^ 17 := by
    rw [lor_mod_two_pow]
    have e1 : c >>> 15 % 2 ^ 32 = c / 2 ^ 15 := by
      rw [hshr]; exact Nat.mod_eq_of_lt (by omega)
    have e2 : c <<< 17 % 2 ^ 32 = c % 2 ^ 15 * 2 ^ 17 := by
      rw [Nat.shiftLeft_eq]
      have h32 : (2 : Nat) ^ 32 = 2 ^ 15 * 2 ^ 17 := by norm_num
      rw [h32, Nat.mul_mod_mul_right]
    rw [e1, e2]
    exact lor_mul_two_pow_eq_add 17 _ _ (by omega)
  calc ((c >>> 15 ||| c <<< 17) + 0xA282EAD8) % 2 ^ 32
      = ((c >>> 15 ||| c <<< 17) % 2 ^ 32 + 0xA282EAD8 % 2 ^ 32) % 2 ^ 32 := by
        rw [← Nat.add_mod]
    _ = (c / 2 ^ 15 + c % 2 ^ 15 * 2 ^ 17 + 0xA282EAD8) % 2 ^ 32 := by
        rw [h1]; norm_num

theorem masked_crc32c_lt (b : List Nat) : masked_crc32c b < 2 ^ 32 :=
  Nat.mod_lt _ (by norm_num)

/-- C1: `masked_crc32c` applies exactly the documented masking transform
`((crc >> 15) | (crc << 17)) + 0xA282EAD8 (mod 2^32)` to the CRC32C of the
input; the bitwise or is a genuine 32-bit rotation (equivalently expressed
with pure arithmetic on the high and low parts of the CRC), and the result
is always a 32-bit value. As a total Lean function of the byte string it
is pure and deterministic with no failure modes. -/
theorem masked_crc32c_correct (b : List Nat) :
    masked_crc32c b
        = ((crc32c b >>> 15 ||| crc32c b <<< 17) + 0xA282EAD8) % 2 ^ 32
      ∧ masked_crc32c b
        = (crc32c b / 2 ^ 15 + crc32c b % 2 ^ 15 * 2 ^ 17 + 0xA282EAD8) % 2 ^ 32
      ∧ masked_crc32c b < 2 ^ 32 := by
  exact ⟨rfl, maskCrc_eq_rotation (crc32c b) (crc32c_lt b), masked_crc32c_lt b⟩

/-! ## Record framer

`RecordWriter` and its framing logic are not part of the provided sources
(`src/` holds only the summary module); the framer is modelled from the
spec, §4.2: length as 8-byte little-endian, masked CRC of the length
bytes as 4-byte little-endian, the payload, then masked CRC of the
payload as 4-byte little-endian. -/

/-- Modelled from the spec: the byte frame §4.2 produces for one payload
(`RecordWriter`'s framing is not under `src/`). -/
def write_record (payload : List Nat) : List Nat :=
  leBytes 8 payload.length
    ++ leBytes 4 (masked_crc32c (leBytes 8 payload.length))
    ++ payload
    ++ leBytes 4 (masked_crc32c payload)

/-- The byte sink owned by a record writer: an unflushed buffer plus the
bytes already handed to the OS. Writes append to the buffer; `flush`
moves the buffer into the flushed output. -/
structure RecordWriter where
  buf : List Nat
  flushed : List Nat
deriving DecidableEq, Repr

/-- A record writer over a fresh sink. -/
def freshRecordWriter : RecordWriter := ⟨[], []⟩

/-- Modelled from the spec: `RecordWriter::send` frames one payload and
writes the frame to the sink (§4.2). -/
def RecordWriter.sendBytes (rw : RecordWriter) (payload : List Nat) : RecordWriter :=
  { rw with buf := rw.buf ++ write_record payload }

/-- `RecordWriter::flush`: hand all buffered bytes to the OS. -/
def RecordWriter.flushSink (rw : RecordWriter) : RecordWriter :=
  { buf := [], flushed := rw.flushed ++ rw.buf }

/-- Everything the sink has received, in write order. -/
def RecordWriter.sinkContents (rw : RecordWriter) : List Nat :=
  rw.flushed ++ rw.buf

/-- Send a sequence of payloads in call order. -/
def RecordWriter.sendAll (rw : RecordWriter) (ps : List (List Nat)) : RecordWriter :=
  ps.foldl RecordWriter.sendBytes rw

theorem sinkContents_sendBytes (rw : RecordWriter) (p : List Nat) :
    (rw.sendBytes p).sinkContents = rw.sinkContents ++ write_record p := by
  simp [RecordWriter.sendBytes, RecordWriter.sinkContents]

theorem sinkContents_sendAll (ps : List (List Nat)) :
    ∀ rw : RecordWriter,
      (rw.sendAll ps).sinkContents = rw.sinkContents ++ (ps.map write_record).join := by
  induction ps with
  | nil => intro rw; simp [RecordWriter.sendAll]
  | cons p t ih =>
    intro rw
    simp only [RecordWriter.sendAll, List.foldl_cons, List.map_cons, List.join]
    rw [show List.foldl RecordWriter.sendBytes (rw.sendBytes p) t
          = (rw.sendBytes p).sendAll t from rfl, ih]
    simp [sinkContents_sendBytes]

/-- C2: sending `N` payloads through one record framer over a fresh sink
makes the sink receive exactly the `N` frames concatenated in call order
with no separators, and each frame decomposes as the 8-byte little-endian
payload length, the 4-byte little-endian masked CRC32C of those length
bytes, the payload, and the 4-byte little-endian masked CRC32C of the
payload, the decoded length field equalling the payload's byte length. -/
theorem record_framer_correct (ps : List (List Nat))
    (h : ∀ p ∈ ps, p.length < 2 ^ 64) :
    (freshRecordWriter.sendAll ps).sinkContents = (ps.map write_record).join
      ∧ (ps.map write_record).length = ps.length
      ∧ ∀ p ∈ ps, ∃ lenB crcLenB crcPayB : List Nat,
          write_record p = lenB ++ crcLenB ++ p ++ crcPayB
          ∧ lenB.length = 8 ∧ crcLenB.length = 4 ∧ crcPayB.length = 4
          ∧ fromLe lenB = p.length
          ∧ fromLe crcLenB = masked_crc32c lenB
          ∧ fromLe crcPayB = masked_crc32c p := by
  refine ⟨by simpa [freshRecordWriter, RecordWriter.sinkContents]
              using sinkContents_sendAll ps freshRecordWriter,
          List.length_map _ _, ?_⟩
  intro p hp
  refine ⟨leBytes 8 p.length, leBytes 4 (masked_crc32c (leBytes 8 p.length)),
          leBytes 4 (masked_crc32c p), ?_, leBytes_length _ _, leBytes_length _ _,
          leBytes_length _ _, ?_, ?_, ?_⟩
  · simp [write_record]
  · rw [fromLe_leBytes]
    exact Nat.mod_eq_of_lt (by have := h p hp; norm_num at this ⊢; omega)
  · rw [fromLe_leBytes]
    exact Nat.mod_eq_of_lt
      (lt_of_lt_of_le (masked_crc32c_lt _) (by norm_num))
  · rw [fromLe_leBytes]
    exact Nat.mod_eq_of_lt
      (lt_of_lt_of_le (masked_crc32c_lt _) (by norm_num))

set_option maxRecDepth 100000 in
theorem record_framer_correct_witness :
    (∀ p ∈ [[1, 2, 3], [4]], List.length p < 2 ^ 64)
    ∧ ((freshRecordWriter.sendAll [[1, 2, 3], [4]]).sinkContents
          = ([[1, 2, 3], [4]].map write_record).join
        ∧ ([[1, 2, 3], [4]].map write_record).length = [[1, 2, 3], [4]].length
        ∧ ∀ p ∈ [[1, 2, 3], [4]], ∃ lenB crcLenB crcPayB : List Nat,
            write_record p = lenB ++ crcLenB ++ p ++ crcPayB
            ∧ lenB.length = 8 ∧ crcLenB.length = 4 ∧ crcPayB.length = 4
            ∧ fromLe lenB = p.length
            ∧ fromLe crcLenB = masked_crc32c lenB
            ∧ fromLe crcPayB = masked_crc32c p) :=
  ⟨by decide, record_framer_correct [[1, 2, 3], [4]] (by decide)⟩

/-! ## Protobuf message model

The `protos` module (prost-generated from the TensorFlow `.proto` files)
is an external collaborator; the structures below model exactly the
messages and fields `src/summary/event.rs` constructs, with `i32`/`i64`
as `Int`, byte strings as `List Nat` and floats as described in the
header. -/

/-- `summary.proto` `SummaryMetadata.PluginData`. -/
structure PluginData where
  plugin_name : String
  content : List Nat
deriving DecidableEq, Repr

/-- `summary.proto` `SummaryMetadata`. -/
structure SummaryMetadata where
  plugin_data : Option PluginData
  display_name : String
  summary_description : String
  data_class : Int
deriving DecidableEq, Repr

/-- `types.proto` `DataType`; only the variants the summary module uses. -/
inductive DataType where
  | dtInvalid
  | dtFloat
  | dtString
deriving DecidableEq, Repr

/-- The `i32` wire value of a `DataType` (`DT_INVALID = 0`, `DT_FLOAT = 1`,
`DT_STRING = 7` in `types.proto`). -/
def DataType.toI32 : DataType → Int
  | .dtInvalid => 0
  | .dtFloat => 1
  | .dtString => 7

/-- `tensor_shape.proto` `TensorShapeProto.Dim`. -/
structure Dim where
  size : Int
  name : String
deriving DecidableEq, Repr

/-- `tensor_shape.proto` `TensorShapeProto`. -/
structure TensorShapeProto where
  dim : List Dim
  unknown_rank : Bool
deriving DecidableEq, Repr

/-- `tensor.proto` `TensorProto`; the fields the summary module touches
(the remaining prost fields stay at their `Default::default()` values and
are represented by these fields' defaults). -/
structure TensorProto where
  dtype : Int
  tensor_shape : TensorShapeProto
  version_number : Int
  string_val : List (List Nat)
  float_val : List F32
deriving DecidableEq, Repr

/-- `Default::default()` for `TensorProto`. -/
def TensorProto.default : TensorProto :=
  { dtype := 0
    tensor_shape := { dim := [], unknown_rank := false }
    version_number := 0
    string_val := []
    float_val := [] }

/-- `summary.proto` `HistogramProto`. -/
structure HistogramProto where
  min : Rat
  max : Rat
  num : Rat
  sum : Rat
  sum_squares : Rat
  bucket_limit : List Rat
  bucket : List Rat
deriving DecidableEq, Repr

/-- `summary.proto` `Summary.Image`. -/
structure Image where
  height : Int
  width : Int
  colorspace : Int
  encoded_image_string : List Nat
deriving DecidableEq, Repr

/-- `summary.proto` `Summary.Audio`. -/
structure Audio where
  sample_rate : F32
  num_channels : Int
  length_frames : Int
  encoded_audio_string : List Nat
  content_type : String
deriving DecidableEq, Repr

/-- The `value` oneof of `summary.proto` `Summary.Value`
(`summary::value::Value` in the generated code). -/
inductive ValueEnum where
  | simpleValue (v : F32)
  | tensor (t : TensorProto)
  | histo (h : HistogramProto)
  | image (i : Image)
  | audio (a : Audio)
deriving DecidableEq, Repr

/-- `summary.proto` `Summary.Value`. -/
structure Value where
  node_name : String
  tag : String
  metadata : Option SummaryMetadata
  value : Option ValueEnum
deriving DecidableEq, Repr

/-- `summary.proto` `Summary`. -/
structure Summary where
  value : List Value
deriving DecidableEq, Repr

/-- The `what` oneof of `event.proto` `Event`; the summary module only
ever constructs the `Summary` variant. -/
inductive What where
  | summary (s : Summary)
deriving DecidableEq, Repr

/-- `event.proto` `Event`. `wall_time` (an `f64` of seconds since epoch)
is carried as an exact rational. -/
structure Event where
  wall_time : Rat
  step : Int
  what : Option What
deriving DecidableEq, Repr

/-! ## Event initializer (`src/summary/event.rs`) -/

/-- `EventInit` (`src/summary/event.rs:5`): wall time (seconds, `None`
meaning "sample the clock when the event is built") and the global step. -/
structure EventInit where
  wall_time : Option Rat
  step : Int
deriving DecidableEq, Repr

/-- `EventInit::new` (`src/summary/event.rs:16`). -/
def EventInit.new (step : Int) (wall_time : Rat) : EventInit :=
  { wall_time := some wall_time, step := step }

/-- `EventInit::with_step` (`src/summary/event.rs:24`). -/
def EventInit.with_step (step : Int) : EventInit :=
  { wall_time := none, step := step }

/-- `EventInit::to_parts` (`src/summary/event.rs:51`). The system clock
read by `get_wall_time` is an external collaborator, passed in as `now`
(seconds since epoch). -/
def EventInit.to_parts (self : EventInit) (now : Rat) : Rat × Int :=
  (self.wall_time.getD now, self.step)

/-- `EventInit::build_empty` (`src/summary/event.rs:32`). -/
def EventInit.build_empty (self : EventInit) (now : Rat) : Event :=
  { wall_time := (self.to_parts now).1, step := (self.to_parts now).2, what := none }

/-- `EventInit::build_with_summary` (`src/summary/event.rs:42`). -/
def EventInit.build_with_summary (self : EventInit) (now : Rat) (summary : Summary) : Event :=
  { wall_time := (self.to_parts now).1
    step := (self.to_parts now).2
    what := some (What.summary summary) }

/-- `SystemTime::duration_since(UNIX_EPOCH)` for a system time of `t`
nanoseconds since the epoch (negative = before the epoch): `Ok` with the
duration in nanoseconds, or an error for times before the epoch. The
clock type is an external collaborator. -/
def durationSinceEpochNanos (t : Int) : Option Nat :=
  if 0 ≤ t then some t.toNat else none

/-- `impl From<(i64, SystemTime)> for EventInit` (`src/summary/event.rs:81`):
the `duration_since` result is `.unwrap()`ed, so a pre-epoch time panics —
modelled as `none`. On success the wall time is `as_nanos() as f64 / 1.0e9`,
modelled as the exact rational. -/
def EventInit.fromStepSystemTime (step : Int) (t : Int) : Option EventInit :=
  (durationSinceEpochNanos t).map fun nanos =>
    EventInit.new step ((nanos : Rat) / (10 ^ 9 : Rat))

/-! ## Summary builders (`src/summary/event.rs`)

`SummaryInit<T: ToString>` holds only the tag; the embedding applies
`to_string` up front and takes the tag as a `String`. The generic
`TryInto` conversions of the histogram / tensor / image / image-list /
audio builders are external collaborators: each builder receives the
conversion's result (`Except Error _`) and the `?` operator becomes a
`match` that returns the error unchanged. `String::into_bytes` is the
UTF-8 byte encoding of the string. -/

/-- Rust `String::into_bytes`: the UTF-8 bytes of a string. -/
def stringBytes (s : String) : List Nat :=
  s.toUTF8.toList.map (fun b => b.toNat)

/-- `SummaryInit::build_scalar` (`src/summary/event.rs:113`). -/
def build_scalar (tag : String) (value : F32) : Except Error Summary :=
  Except.ok
    { value := [{ node_name := ""
                  tag := tag
                  metadata := none
                  value := some (ValueEnum.simpleValue value) }] }

/-- `SummaryInit::build_string` (`src/summary/event.rs:128`). -/
def build_string (tag : String) (value : String) : Except Error Summary :=
  Except.ok
    { value := [{ node_name := ""
                  tag := tag
                  metadata := some
                    { plugin_data := some { plugin_name := "text", content := [] }
                      display_name := ""
                      summary_description := value
                      data_class := 0 }
                  value := some (ValueEnum.tensor
                    { TensorProto.default with
                        dtype := DataType.dtString.toI32
                        tensor_shape :=
                          { dim := [{ size := 1, name := "" }], unknown_rank := false }
                        version_number := 0
                        string_val := [stringBytes value] }) }] }

/-- `SummaryInit::build_histogram` (`src/summary/event.rs:164`);
`histogram` is the result of the delegated `TryInto` conversion. -/
def build_histogram (tag : String) (histogram : Except Error HistogramProto) :
    Except Error Summary :=
  match histogram with
  | .error e => .error e
  | .ok h =>
    .ok { value := [{ node_name := ""
                      tag := tag
                      metadata := none
                      value := some (ValueEnum.histo h) }] }

/-- `SummaryInit::build_tensor` (`src/summary/event.rs:183`). -/
def build_tensor (tag : String) (tensor : Except Error TensorProto) :
    Except Error Summary :=
  match tensor with
  | .error e => .error e
  | .ok t =>
    .ok { value := [{ node_name := ""
                      tag := tag
                      metadata := none
                      value := some (ValueEnum.tensor t) }] }

/-- `SummaryInit::build_image` (`src/summary/event.rs:202`). -/
def build_image (tag : String) (image : Except Error Image) :
    Except Error Summary :=
  match image with
  | .error e => .error e
  | .ok i =>
    .ok { value := [{ node_name := ""
                      tag := tag
                      metadata := none
                      value := some (ValueEnum.image i) }] }

/-- `SummaryInit::build_image_list` (`src/summary/event.rs:221`);
`images` is the result of the delegated `try_into_image_list` conversion.
A one-element list yields a single value tagged `"{tag}/image"`, anything
else one value per image tagged `"{tag}/image/{index}"`. -/
def build_image_list (tag : String) (images : Except Error (List Image)) :
    Except Error Summary :=
  match images with
  | .error e => .error e
  | .ok image_protos =>
    let values :=
      match image_protos with
      | [image_proto] =>
        [{ node_name := ""
           tag := tag ++ "/image"
           metadata := none
           value := some (ValueEnum.image image_proto) : Value }]
      | _ =>
        (image_protos.enum.map fun (index, image_proto) =>
          { node_name := ""
            tag := tag ++ "/image/" ++ toString index
            metadata := none
            value := some (ValueEnum.image image_proto) : Value })
    .ok { value := values }

/-- `SummaryInit::build_audio` (`src/summary/event.rs:261`). -/
def build_audio (tag : String) (audio : Except Error Audio) :
    Except Error Summary :=
  match audio with
  | .error e => .error e
  | .ok a =>
    .ok { value := [{ node_name := ""
                      tag := tag
                      metadata := none
                      value := some (ValueEnum.audio a) }] }

/-! ## Event writer (`src/summary/writer.rs`)

The protobuf encoder is an external collaborator, passed in as
`enc : Event → List Nat`; the system clock as `now` (seconds since
epoch, used when an `EventInit` carries no wall time). Each Rust
`write_*` method mutates `&mut self` and returns `Result<(), Error>`;
the embedding returns the new writer state paired with the result, the
`?` early return leaving the state untouched. -/

/-- `EventWriterInit` (`src/summary/writer.rs:5`). -/
structure EventWriterInit where
  auto_flush : Bool
deriving DecidableEq, Repr

/-- `impl Default for EventWriterInit` (`src/summary/writer.rs:10`). -/
def EventWriterInit.default : EventWriterInit :=
  { auto_flush := true }

/-- `EventWriter` (`src/summary/writer.rs:197`). -/
structure EventWriter where
  auto_flush : Bool
  events_writer : RecordWriter
deriving DecidableEq, Repr

/-- `EventWriterInit::from_writer` (`src/summary/writer.rs:18`): wrap a
fresh sink, carrying over the `auto_flush` flag. -/
def EventWriterInit.from_writer (self : EventWriterInit) : EventWriter :=
  { auto_flush := self.auto_flush, events_writer := freshRecordWriter }

/-- The shared tail of every `write_*` method
(`src/summary/writer.rs:218`-`222`): send the encoded event to the
record writer, then flush the sink exactly when `auto_flush` is set. -/
def EventWriter.sendEvent (w : EventWriter) (enc : Event → List Nat)
    (event : Event) : EventWriter :=
  let w1 := { w with events_writer := w.events_writer.sendBytes (enc event) }
  if w1.auto_flush then { w1 with events_writer := w1.events_writer.flushSink }
  else w1

/-- `EventWriter::write_event` (`src/summary/writer.rs:358`). -/
def EventWriter.write_event (w : EventWriter) (enc : Event → List Nat)
    (event : Event) : EventWriter × Except Error Unit :=
  (w.sendEvent enc event, .ok ())

/-- `EventWriter::write_scalar` (`src/summary/writer.rs:207`). -/
def EventWriter.write_scalar (w : EventWriter) (enc : Event → List Nat)
    (now : Rat) (tag : String) (event_init : EventInit) (value : F32) :
    EventWriter × Except Error Unit :=
  match build_scalar tag value with
  | .error e => (w, .error e)
  | .ok summary => (w.sendEvent enc (event_init.build_with_summary now summary), .ok ())

/-- `EventWriter::write_text` (`src/summary/writer.rs:226`). -/
def EventWriter.write_text (w : EventWriter) (enc : Event → List Nat)
    (now : Rat) (tag : String) (event_init : EventInit) (value : String) :
    EventWriter × Except Error Unit :=
  match build_string tag value with
  | .error e => (w, .error e)
  | .ok summary => (w.sendEvent enc (event_init.build_with_summary now summary), .ok ())

/-- `EventWriter::write_histogram` (`src/summary/writer.rs:246`);
`histogram` is the delegated `TryInto<HistogramProto>` result. -/
def EventWriter.write_histogram (w : EventWriter) (enc : Event → List Nat)
    (now : Rat) (tag : String) (event_init : EventInit)
    (histogram : Except Error HistogramProto) : EventWriter × Except Error Unit :=
  match build_histogram tag histogram with
  | .error e => (w, .error e)
  | .ok summary => (w.sendEvent enc (event_init.build_with_summary now summary), .ok ())

/-- `EventWriter::write_tensor` (`src/summary/writer.rs:267`). -/
def EventWriter.write_tensor (w : EventWriter) (enc : Event → List Nat)
    (now : Rat) (tag : String) (event_init : EventInit)
    (tensor : Except Error TensorProto) : EventWriter × Except Error Unit :=
  match build_tensor tag tensor with
  | .error e => (w, .error e)
  | .ok summary => (w.sendEvent enc (event_init.build_with_summary now summary), .ok ())

/-- `EventWriter::write_image` (`src/summary/writer.rs:288`). -/
def EventWriter.write_image (w : EventWriter) (enc : Event → List Nat)
    (now : Rat) (tag : String) (event_init : EventInit)
    (image : Except Error Image) : EventWriter × Except Error Unit :=
  match build_image tag image with
  | .error e => (w, .error e)
  | .ok summary => (w.sendEvent enc (event_init.build_with_summary now summary), .ok ())

/-- `EventWriter::write_image_list` (`src/summary/writer.rs:309`). -/
def EventWriter.write_image_list (w : EventWriter) (enc : Event → List Nat)
    (now : Rat) (tag : String) (event_init : EventInit)
    (images : Except Error (List Image)) : EventWriter × Except Error Unit :=
  match build_image_list tag images with
  | .error e => (w, .error e)
  | .ok summary => (w.sendEvent enc (event_init.build_with_summary now summary), .ok ())

/-- `EventWriter::write_audio` (`src/summary/writer.rs:330`). -/
def EventWriter.write_audio (w : EventWriter) (enc : Event → List Nat)
    (now : Rat) (tag : String) (event_init : EventInit)
    (audio : Except Error Audio) : EventWriter × Except Error Unit :=
  match build_audio tag audio with
  | .error e => (w, .error e)
  | .ok summary => (w.sendEvent enc (event_init.build_with_summary now summary), .ok ())

/-- `EventWriter::flush` (`src/summary/writer.rs:367`). -/
def EventWriter.flushWriter (w : EventWriter) : EventWriter × Except Error Unit :=
  ({ w with events_writer := w.events_writer.flushSink }, .ok ())

/-! ## Path resolver (`src/summary/writer.rs:96`, `create_tf_style_path`)

`std::path` operations, the system clock and the hostname lookup are
external collaborators. `Path::file_name` / `Path::parent` are modelled
on the spec's words (§4.6: the final separator-delimited component of
the prefix, and everything before it); `MAIN_SEPARATOR` is `'/'`. The
timestamp (microseconds since epoch) and the hostname-lookup result are
passed in. Lean strings are always Unicode, so the file-name
`UnicodeError` branch of the source cannot trigger in the model; the
hostname branch keeps its two failure modes inside the passed-in
`Except`. -/

/-- Split a character list at `'/'` separators, accumulating the current
component in reverse. -/
def splitSlashAux (cur : List Char) : List Char → List String
  | [] => [String.mk cur.reverse]
  | c :: rest =>
    if c = '/' then String.mk cur.reverse :: splitSlashAux [] rest
    else splitSlashAux (c :: cur) rest

/-- The `'/'`-separated components of a path string (the view of the
spec's "final path component" and "parent", §4.6). -/
def pathComponents (s : String) : List String := splitSlashAux [] s.data

/-- `EventWriterInit::create_tf_style_path` (`src/summary/writer.rs:96`).
The `prefix.chars().last()` test against `MAIN_SEPARATOR` becomes
`pfx.data.getLast? = some '/'`; `Path::file_name` / `Path::parent` are
the last path component and the components before it. -/
def create_tf_style_path (pfx : String) (file_name_suffix : Option String)
    (timestamp : Nat) (host_name : Except Error String) :
    Except Error (String × String) :=
  let suffix := file_name_suffix.getD ""
  if pfx = "" then
    .error (.invalidArgumentsError "the prefix must not be empty")
  else
    let dirFile : String × String :=
      if pfx.data.getLast? = some '/' then (pfx, "")
      else
        let parts := pathComponents pfx
        (String.intercalate "/" parts.dropLast, parts.getLastD "")
    match host_name with
    | .error e => .error e
    | .ok host =>
      .ok (dirFile.1,
           dirFile.2 ++ ".out.tfevents." ++ toString timestamp ++ "." ++ host ++ suffix)

/-- A filesystem side effect of writer construction. -/
inductive FsOp where
  | createDirAll (dir : String)
  | createFile (path : String)
deriving DecidableEq, Repr

/-- `EventWriterInit::from_prefix` (`src/summary/writer.rs:40`): resolve
the path, create the directory, create the file, wrap it. The returned
list records the filesystem operations performed, in order; the `?` on
path resolution performs none. -/
def EventWriterInit.from_prefix (self : EventWriterInit) (pfx : String)
    (file_name_suffix : Option String) (timestamp : Nat)
    (host_name : Except Error String) : List FsOp × Except Error EventWriter :=
  match create_tf_style_path pfx file_name_suffix timestamp host_name with
  | .error e => ([], .error e)
  | .ok (dirPath, file_name) =>
    ([FsOp.createDirAll dirPath, FsOp.createFile (dirPath ++ "/" ++ file_name)],
     .ok (self.from_writer))

/-! ## Claim theorems for the payload builders and event initializer -/

/-- C3: for every tag `t` and 32-bit float `v`, `build_scalar` succeeds
and produces a Summary with exactly one Value whose tag is `t`, whose
node name is empty, which carries no metadata, and whose payload is the
simple scalar `v`; in particular for tag `"loss"` and the float `0.25`
(bit pattern `0x3E800000`). -/
theorem build_scalar_correct (t : String) (v : F32) :
    (∃ s, build_scalar t v = Except.ok s
       ∧ s.value.length = 1
       ∧ s.value.head? = some
           { node_name := "", tag := t, metadata := none
             value := some (ValueEnum.simpleValue v) })
    ∧ (∃ s, build_scalar "loss" ⟨0x3E800000⟩ = Except.ok s
       ∧ s.value.length = 1
       ∧ s.value.head? = some
           { node_name := "", tag := "loss", metadata := none
             value := some (ValueEnum.simpleValue ⟨0x3E800000⟩) }) := by
  exact ⟨⟨_, rfl, rfl, rfl⟩, ⟨_, rfl, rfl, rfl⟩⟩

/-- C4: for every tag `t` and string `s`, `build_string` succeeds and
produces a Summary with exactly one Value whose payload is a rank-1
size-1 string-dtype tensor holding the UTF-8 bytes of `s`, and whose
metadata carries `plugin_name = "text"`, a description equal to a copy
of `s`, and an empty display name. -/
theorem build_string_correct (t s : String) :
    ∃ sm, build_string t s = Except.ok sm
      ∧ sm.value.length = 1
      ∧ sm.value.head? = some
          { node_name := ""
            tag := t
            metadata := some
              { plugin_data := some { plugin_name := "text", content := [] }
                display_name := ""
                summary_description := s
                data_class := 0 }
            value := some (ValueEnum.tensor
              { TensorProto.default with
                  dtype := DataType.dtString.toI32
                  tensor_shape :=
                    { dim := [{ size := 1, name := "" }], unknown_rank := false }
                  version_number := 0
                  string_val := [stringBytes s] }) } := by
  exact ⟨_, rfl, rfl, rfl⟩

/-- C6: for every typed write operation with a fallible payload
conversion (`write_histogram`, `write_tensor`, `write_image`,
`write_image_list`, `write_audio`), a failed conversion makes the
operation return that error with the writer completely unchanged: no
bytes reach the record writer or sink, no flush happens, no partial
frame exists. -/
theorem conversion_error_no_write (w : EventWriter) (enc : Event → List Nat)
    (now : Rat) (t : String) (init : EventInit) (e : Error) :
    w.write_histogram enc now t init (.error e) = (w, .error e)
    ∧ w.write_tensor enc now t init (.error e) = (w, .error e)
    ∧ w.write_image enc now t init (.error e) = (w, .error e)
    ∧ w.write_image_list enc now t init (.error e) = (w, .error e)
    ∧ w.write_audio enc now t init (.error e) = (w, .error e) :=
  ⟨rfl, rfl, rfl, rfl, rfl⟩

/-- C8: the empty prefix is rejected by path resolution with
`InvalidArgumentsError`, and writer construction from the empty prefix
performs no filesystem operation at all. -/
theorem empty_prefix_rejected (sfx : Option String) (ts : Nat)
    (host : Except Error String) (init : EventWriterInit) :
    create_tf_style_path "" sfx ts host
        = .error (.invalidArgumentsError "the prefix must not be empty")
    ∧ init.from_prefix "" sfx ts host
        = ([], .error (.invalidArgumentsError "the prefix must not be empty")) := by
  constructor
  · rfl
  · rfl

/-- C10: the conversion from a `(step, SystemTime)` pair to an
`EventInit` is total exactly on times at or after the Unix epoch: at or
after the epoch it yields an initializer whose wall time is the elapsed
seconds (nanoseconds divided by `10^9`), while a time strictly before
the epoch panics (`none` in the model) instead of returning an error. -/
theorem eventInit_from_system_time (step t : Int) :
    (0 ≤ t → EventInit.fromStepSystemTime step t
        = some (EventInit.new step ((t.toNat : Rat) / (10 ^ 9 : Rat))))
    ∧ (t < 0 → EventInit.fromStepSystemTime step t = none) := by
  constructor
  · intro h
    simp [EventInit.fromStepSystemTime, durationSinceEpochNanos, h]
  · intro h
    simp [EventInit.fromStepSystemTime, durationSinceEpochNanos, not_le.mpr h]

theorem eventInit_from_system_time_witness :
    ((0 : Int) ≤ 1500000000
      ∧ EventInit.fromStepSystemTime 5 1500000000
          = some (EventInit.new 5 (((1500000000 : Int).toNat : Rat) / (10 ^ 9 : Rat))))
    ∧ ((-3 : Int) < 0 ∧ EventInit.fromStepSystemTime 5 (-3) = none) :=
  ⟨⟨by norm_num, (eventInit_from_system_time 5 1500000000).1 (by norm_num)⟩,
   ⟨by norm_num, (eventInit_from_system_time 5 (-3)).2 (by norm_num)⟩⟩

/-- C5: for every tag `t` and every successfully converted image
sequence, `build_image_list` succeeds; an empty sequence yields a
Summary with zero Values, a one-element sequence yields a single Value
tagged `"{t}/image"`, and a longer sequence yields one Value per image
tagged `"{t}/image/{index}"` with zero-based indices in input order. -/
theorem build_image_list_correct (t : String) (ps : List Image) :
    ∃ s, build_image_list t (.ok ps) = Except.ok s
      ∧ (ps = [] → s.value = [])
      ∧ (∀ i, ps = [i] →
           s.value = [{ node_name := "", tag := t ++ "/image", metadata := none
                        value := some (ValueEnum.image i) }])
      ∧ (1 < ps.length →
           s.value.length = ps.length
           ∧ ∀ idx, idx < ps.length →
               s.value[idx]? = ps[idx]?.map fun p =>
                 { node_name := "", tag := t ++ "/image/" ++ toString idx
                   metadata := none, value := some (ValueEnum.image p) }) := by
  match ps with
  | [] =>
    refine ⟨_, rfl, fun _ => rfl, fun i hi => by simp at hi, fun h => by simp at h⟩
  | [a] =>
    refine ⟨_, rfl, fun h => by simp at h, fun i hi => ?_, fun h => by simp at h⟩
    obtain rfl : a = i := by simpa using hi
    rfl
  | a :: b :: rest =>
    refine ⟨_, rfl, fun h => by simp at h, fun i hi => by simp at hi, fun _ => ?_⟩
    constructor
    · simp [build_image_list, List.enum_length]
    · intro idx hidx
      simp only [build_image_list]
      rw [List.getElem?_map, List.getElem?_enum]
      cases hcell : (a :: b :: rest)[idx]? with
      | none => simp [hcell]
      | some p => simp [hcell]

theorem build_image_list_correct_witness :
    (∃ s, build_image_list "pics"
            (.ok [⟨1, 2, 3, [7]⟩, ⟨4, 5, 6, [8]⟩, ⟨9, 10, 11, [12]⟩]) = Except.ok s
       ∧ s.value.length = 3
       ∧ s.value.map Value.tag = ["pics/image/0", "pics/image/1", "pics/image/2"])
    ∧ (∃ s, build_image_list "pics" (.ok [⟨1, 2, 3, [7]⟩]) = Except.ok s
       ∧ s.value.map Value.tag = ["pics/image"]) := by
  constructor
  · obtain ⟨s, hs, -, -, hlong⟩ :=
      build_image_list_correct "pics" [⟨1, 2, 3, [7]⟩, ⟨4, 5, 6, [8]⟩, ⟨9, 10, 11, [12]⟩]
    have hs' := hs
    simp only [build_image_list] at hs'
    obtain rfl : s = _ := (Except.ok.injEq _ _).mp hs'.symm
    exact ⟨_, hs, by decide, by decide⟩
  · obtain ⟨s, hs, -, hone, -⟩ :=
      build_image_list_correct "pics" [⟨1, 2, 3, [7]⟩]
    have h := hone ⟨1, 2, 3, [7]⟩ rfl
    exact ⟨s, hs, by rw [h]; rfl⟩

/-- The observable flush behaviour of one successful write: with
`auto_flush` everything (previous buffer and the new frame) has been
handed to the sink and the buffer is empty; without it the frame merely
sits appended to the buffer and the flushed output is untouched. -/
def flushedPerPolicy (w w' : EventWriter) (frame : List Nat) : Prop :=
  w'.events_writer.buf
      = (if w.auto_flush then [] else w.events_writer.buf ++ frame)
    ∧ w'.events_writer.flushed
      = (if w.auto_flush then w.events_writer.flushed ++ (w.events_writer.buf ++ frame)
         else w.events_writer.flushed)

theorem sendEvent_spec (w : EventWriter) (enc : Event → List Nat) (ev : Event) :
    (w.sendEvent enc ev).auto_flush = w.auto_flush
    ∧ flushedPerPolicy w (w.sendEvent enc ev) (write_record (enc ev)) := by
  unfold EventWriter.sendEvent RecordWriter.sendBytes RecordWriter.flushSink
    flushedPerPolicy
  cases h : w.auto_flush <;> simp [h]

/-- C7: `auto_flush` defaults to `true`, is fixed at construction, and no
writer operation changes it; every successful write operation (the typed
`write_*` family and `write_event`) flushes the sink immediately after
writing the record exactly when `auto_flush` is set, and leaves the frame
in the unflushed buffer otherwise. -/
theorem auto_flush_policy (init : EventWriterInit) (w : EventWriter)
    (enc : Event → List Nat) (now : Rat) (t : String) (ei : EventInit)
    (ev : Event) (v : F32) (txt : String)
    (hr : Except Error HistogramProto) (tr : Except Error TensorProto)
    (ir : Except Error Image) (ilr : Except Error (List Image))
    (ar : Except Error Audio)
    (h : HistogramProto) (tp : TensorProto) (img : Image)
    (imgs : List Image) (au : Audio) :
    EventWriterInit.default.auto_flush = true
    ∧ (init.from_writer).auto_flush = init.auto_flush
    ∧ (w.write_event enc ev).1.auto_flush = w.auto_flush
    ∧ (w.write_scalar enc now t ei v).1.auto_flush = w.auto_flush
    ∧ (w.write_text enc now t ei txt).1.auto_flush = w.auto_flush
    ∧ (w.write_histogram enc now t ei hr).1.auto_flush = w.auto_flush
    ∧ (w.write_tensor enc now t ei tr).1.auto_flush = w.auto_flush
    ∧ (w.write_image enc now t ei ir).1.auto_flush = w.auto_flush
    ∧ (w.write_image_list enc now t ei ilr).1.auto_flush = w.auto_flush
    ∧ (w.write_audio enc now t ei ar).1.auto_flush = w.auto_flush
    ∧ (w.flushWriter).1.auto_flush = w.auto_flush
    ∧ ((w.write_event enc ev).2 = .ok ()
        ∧ flushedPerPolicy w (w.write_event enc ev).1 (write_record (enc ev)))
    ∧ (∃ frame, (w.write_scalar enc now t ei v).2 = .ok ()
        ∧ flushedPerPolicy w (w.write_scalar enc now t ei v).1 frame)
    ∧ (∃ frame, (w.write_text enc now t ei txt).2 = .ok ()
        ∧ flushedPerPolicy w (w.write_text enc now t ei txt).1 frame)
    ∧ (∃ frame, (w.write_histogram enc now t ei (.ok h)).2 = .ok ()
        ∧ flushedPerPolicy w (w.write_histogram enc now t ei (.ok h)).1 frame)
    ∧ (∃ frame, (w.write_tensor enc now t ei (.ok tp)).2 = .ok ()
        ∧ flushedPerPolicy w (w.write_tensor enc now t ei (.ok tp)).1 frame)
    ∧ (∃ frame, (w.write_image enc now t ei (.ok img)).2 = .ok ()
        ∧ flushedPerPolicy w (w.write_image enc now t ei (.ok img)).1 frame)
    ∧ (∃ frame, (w.write_image_list enc now t ei (.ok imgs)).2 = .ok ()
        ∧ flushedPerPolicy w (w.write_image_list enc now t ei (.ok imgs)).1 frame)
    ∧ (∃ frame, (w.write_audio enc now t ei (.ok au)).2 = .ok ()
        ∧ flushedPerPolicy w (w.write_audio enc now t ei (.ok au)).1 frame) := by
  refine ⟨rfl, rfl, (sendEvent_spec w enc ev).1, (sendEvent_spec w enc _).1,
    (sendEvent_spec w enc _).1, ?_, ?_, ?_, ?_, ?_, rfl,
    ⟨rfl, (sendEvent_spec w enc ev).2⟩,
    ⟨_, rfl, (sendEvent_spec w enc _).2⟩, ⟨_, rfl, (sendEvent_spec w enc _).2⟩,
    ⟨_, rfl, (sendEvent_spec w enc _).2⟩, ⟨_, rfl, (sendEvent_spec w enc _).2⟩,
    ⟨_, rfl, (sendEvent_spec w enc _).2⟩, ⟨_, rfl, (sendEvent_spec w enc _).2⟩,
    ⟨_, rfl, (sendEvent_spec w enc _).2⟩⟩
  · cases hr with
    | error e => rfl
    | ok x => exact (sendEvent_spec w enc _).1
  · cases tr with
    | error e => rfl
    | ok x => exact (sendEvent_spec w enc _).1
  · cases ir with
    | error e => rfl
    | ok x => exact (sendEvent_spec w enc _).1
  · cases ilr with
    | error e => rfl
    | ok x => exact (sendEvent_spec w enc _).1
  · cases ar with
    | error e => rfl
    | ok x => exact (sendEvent_spec w enc _).1

/-- C9: for a non-empty prefix, path resolution keeps a
separator-terminated prefix whole as the directory with an empty
filename prefix, and otherwise splits off the final path component as
the filename prefix with its parent as the directory; the synthesized
filename is exactly
`"{filename_prefix}.out.tfevents.{unix_time_microseconds}.{hostname}{suffix_or_empty}"`,
so prefix `"logs/run1-"` with no suffix yields directory `"logs"` and
filename `"run1-.out.tfevents.{ts}.{hostname}"`. -/
theorem create_tf_style_path_correct (pfx : String) (sfx : Option String)
    (ts : Nat) (host : String) (hne : pfx ≠ "") :
    (pfx.data.getLast? = some '/' →
       create_tf_style_path pfx sfx ts (.ok host)
         = .ok (pfx, "" ++ ".out.tfevents." ++ toString ts ++ "." ++ host ++ sfx.getD ""))
    ∧ (pfx.data.getLast? ≠ some '/' →
       create_tf_style_path pfx sfx ts (.ok host)
         = .ok (String.intercalate "/" ((pathComponents pfx).dropLast),
                (pathComponents pfx).getLastD ""
                  ++ ".out.tfevents." ++ toString ts ++ "." ++ host ++ sfx.getD ""))
    ∧ create_tf_style_path "logs/run1-" none ts (.ok host)
         = .ok ("logs", "run1-" ++ ".out.tfevents." ++ toString ts ++ "." ++ host) := by
  refine ⟨fun hsep => ?_, fun hsep => ?_, ?_⟩
  · simp [create_tf_style_path, hne, hsep]
  · simp [create_tf_style_path, hne, hsep]
  · have hne' : ("logs/run1-" : String) ≠ "" := by decide
    have hsep : ("logs/run1-" : String).data.getLast? ≠ some '/' := by decide
    simp only [create_tf_style_path, if_neg hne', if_neg hsep]
    have hcomp : pathComponents "logs/run1-" = ["logs", "run1-"] := by decide
    simp only [hcomp]
    have : String.intercalate "/" ["logs"] = "logs" := by decide
    simp [this]

theorem create_tf_style_path_correct_witness :
    (("logs/run1-" : String) ≠ ""
      ∧ create_tf_style_path "logs/run1-" none 1234 (.ok "myhost")
          = .ok ("logs", "run1-" ++ ".out.tfevents." ++ toString (1234 : Nat)
                  ++ "." ++ "myhost"))
    ∧ (("logs/" : String) ≠ ""
      ∧ create_tf_style_path "logs/" (some ".sfx") 1234 (.ok "myhost")
          = .ok ("logs/", "" ++ ".out.tfevents." ++ toString (1234 : Nat)
                  ++ "." ++ "myhost" ++ (some ".sfx").getD "")) :=
  ⟨⟨by decide, (create_tf_style_path_correct "logs/run1-" none 1234 "myhost"
      (by decide)).2.2⟩,
   ⟨by decide, (create_tf_style_path_correct "logs/" (some ".sfx") 1234 "myhost"
      (by decide)).1 (by decide)⟩⟩

end TfRecord
